import Mathlib

/-!
Shallow embedding of the Arduino Multi-function Shield clock firmware
(Chronometer_MFS-01_DEV.ino) and verification of its specification claims.

The firmware keeps wall-clock time in five global byte variables
(hd, he, md, me, s: tens/units of hours, tens/units of minutes, seconds),
advanced by the Timer1 compare interrupt ISR(TIMER1_COMPA_vect), and a
mode byte displayMode driving the foreground loop. All bytes are modelled
as Nat with arithmetic taken modulo 256 wherever the source increments.

The specification additionally names three booleans — clickEnabled,
chimeEnabled, hourChimeLatch — for which NO variable exists anywhere in
the source file. They are included below as ghost fields of the state so
that claims mentioning them can be stated; no operation translated from
the source reads or writes them (faithfully reflecting their absence).
-/

/-- Display modes, from the source enum displayModeValues (lines 74..79). -/
inductive DisplayModeValues where
  | MODE_SET_CLOCK_TIME
  | MODE_CLOCK_TIME
  | MODE_SET_ALARM_TIME
  | MODE_ALARM_TIME
  deriving DecidableEq, Repr

open DisplayModeValues

/-- Global state of the firmware: the five volatile byte time fields
(source lines 63..67), the displayMode byte (line 82), and three ghost
booleans named only by the spec (spec section 3) with no counterpart in
the source; the ghosts are never read or written by any operation below. -/
structure ClockState where
  hd : Nat
  he : Nat
  md : Nat
  me : Nat
  s : Nat
  displayMode : DisplayModeValues
  clickEnabled : Bool
  chimeEnabled : Bool
  hourChimeLatch : Bool
  deriving DecidableEq, Repr

/-- Power-on state: all time fields initialized to zero (source lines
63..67), displayMode = MODE_SET_CLOCK_TIME (line 82); the spec-only ghost
flags take the default the spec states, false. -/
def clockPowerOn : ClockState :=
  { hd := 0, he := 0, md := 0, me := 0, s := 0
    displayMode := MODE_SET_CLOCK_TIME
    clickEnabled := false, chimeEnabled := false, hourChimeLatch := false }

/-- Time-advance body of ISR(TIMER1_COMPA_vect), source lines 317..340:
if displayMode != MODE_SET_CLOCK_TIME then s++; if s == 60 the cascade
rolls seconds into minutes and hours. Byte increments are taken mod 256. -/
def tickAdvance (st : ClockState) : ClockState :=
  let st1 := if st.displayMode ≠ MODE_SET_CLOCK_TIME then
               { st with s := (st.s + 1) % 256 } else st
  if st1.s = 60 then
    let st2 := { st1 with s := 0 }
    if st2.me = 9 then
      let st3 := { st2 with me := 0 }
      if st3.md = 5 then
        let st4 := { st3 with md := 0 }
        if st4.hd = 2 then
          if st4.he = 3 then { st4 with he := 0, hd := 0 }
          else { st4 with he := (st4.he + 1) % 256 }
        else if st4.he = 9 then { st4 with he := 0, hd := (st4.hd + 1) % 256 }
        else { st4 with he := (st4.he + 1) % 256 }
      else { st3 with md := (st3.md + 1) % 256 }
    else { st2 with me := (st2.me + 1) % 256 }
  else st1

/-- Full interrupt handler ISR(TIMER1_COMPA_vect), source lines 315..342.
Besides advancing the time it writes BUZZER ON (line 318) and BUZZER OFF
(line 341) exactly once each, unconditionally — the per-second click.
The second component counts the buzzer on/off pulses emitted. -/
def ISR_TIMER1_COMPA_vect (st : ClockState) : ClockState × Nat :=
  (tickAdvance st, 1)

/-- Button-1 handler in MODE_SET_CLOCK_TIME, source lines 131..144:
the manual hour increment (hd == 2 branch resets when he > 2). -/
def b1HourInc (st : ClockState) : ClockState :=
  if st.hd = 2 then
    if st.he > 2 then { st with he := 0, hd := 0 }
    else { st with he := (st.he + 1) % 256 }
  else if st.he = 9 then { st with he := 0, hd := (st.hd + 1) % 256 }
  else { st with he := (st.he + 1) % 256 }

/-- Button-2 handler in MODE_SET_CLOCK_TIME, source lines 169..179:
minutes-units increments with carry into minutes-tens, which wraps at 6. -/
def b2MinuteInc (st : ClockState) : ClockState :=
  if st.me = 9 then
    let st1 := { st with me := 0 }
    if st1.md = 5 then { st1 with md := 0 }
    else { st1 with md := (st1.md + 1) % 256 }
  else { st with me := (st.me + 1) % 256 }

/-- One iteration of the inner while loop of the MODE_SET_CLOCK_TIME
case (source lines 130..228): button 1, when read LOW, increments the
hour fields; button 2, when read LOW, increments the minute fields; the
display redraws (lines 145..165, 180..203, 206..227) touch no state. -/
def settingIteration (b1 b2 : Bool) (st : ClockState) : ClockState :=
  let st1 := if b1 then b1HourInc st else st
  if b2 then b2MinuteInc st1 else st1

/-- The whole MODE_SET_CLOCK_TIME case of loop (source lines 129..231):
the inner while loop runs one iteration per element of the button-sample
trace (each sample giving the levels of buttons 1 and 2), then exits when
button 3 reads LOW, whereupon s = 0 and displayMode = MODE_CLOCK_TIME
(lines 229..230). -/
def caseSetClockTime (presses : List (Bool × Bool)) (st : ClockState) : ClockState :=
  let st1 := presses.foldl (fun a p => settingIteration p.1 p.2 a) st
  { st1 with s := 0, displayMode := MODE_CLOCK_TIME }

/-- Buttons 1 and 2 held together in the foreground loop (source lines
280..303): switch to MODE_SET_CLOCK_TIME; the redraw dwell touches no
state. -/
def b1b2Combo (st : ClockState) : ClockState :=
  { st with displayMode := MODE_SET_CLOCK_TIME }

/-- Hourly signal check at the end of loop, source lines 305..311:
if s == 0 and md == 0 and me == 0 and millis() % 1000 == 0, pulse the
buzzer once. The state is returned unchanged (the source sets no latch —
no such variable exists); the second component counts buzzer pulses. -/
def hourlySignal (st : ClockState) (millis : Nat) : ClockState × Nat :=
  if st.s = 0 ∧ st.md = 0 ∧ st.me = 0 ∧ millis % 1000 = 0
  then (st, 1) else (st, 0)

/-- Hour-rollover step of the tick cascade in isolation (the hd/he update
of source lines 325..335, reached when the cascade enters the hour
fields): on hd = 2 it resets when he == 3. -/
def tickHourRollover (hd he : Nat) : Nat × Nat :=
  if hd = 2 then
    if he = 3 then (0, 0) else (hd, (he + 1) % 256)
  else if he = 9 then ((hd + 1) % 256, 0)
  else (hd, (he + 1) % 256)

/-- Hour-rollover step of the button-1 manual path in isolation (the
hd/he update of source lines 131..144): on hd = 2 it resets when he > 2. -/
def setHourRollover (hd he : Nat) : Nat × Nat :=
  if hd = 2 then
    if he > 2 then (0, 0) else (hd, (he + 1) % 256)
  else if he = 9 then ((hd + 1) % 256, 0)
  else (hd, (he + 1) % 256)

/-- Hour-field invariant from the spec (section 3): hoursUnits a digit,
hoursTens at most 2, and the pair encodes an hour at most 23. -/
def hourInvariant (st : ClockState) : Prop :=
  st.he ≤ 9 ∧ st.hd ≤ 2 ∧ st.hd * 10 + st.he ≤ 23

instance (st : ClockState) : Decidable (hourInvariant st) := by
  unfold hourInvariant; infer_instance

/-- States reachable from power-on under the operations modelled above
(the tick interrupt and the foreground handlers). -/
inductive Reachable : ClockState → Prop where
  | init : Reachable clockPowerOn
  | tick {st} : Reachable st → Reachable (tickAdvance st)
  | setHour {st} : Reachable st → Reachable (b1HourInc st)
  | setMinute {st} : Reachable st → Reachable (b2MinuteInc st)
  | confirm {st} (presses : List (Bool × Bool)) :
      Reachable st → Reachable (caseSetClockTime presses st)
  | combo {st} : Reachable st → Reachable (b1b2Combo st)

/-- Connecting lemma: when the tick cascade reaches the hour fields
(mode not MODE_SET_CLOCK_TIME, s = 59, me = 9, md = 5), the resulting
hour digits are exactly tickHourRollover applied to the old digits. -/
lemma tickAdvance_hour_eq_rollover (st : ClockState)
    (hm : st.displayMode = MODE_CLOCK_TIME) (hs : st.s = 59)
    (hme : st.me = 9) (hmd : st.md = 5) :
    ((tickAdvance st).hd, (tickAdvance st).he) = tickHourRollover st.hd st.he := by
  obtain ⟨hd, he, md, me, s, dm, c1, c2, c3⟩ := st
  simp only at hm hs hme hmd
  subst hm hs hme hmd
  simp only [tickAdvance, tickHourRollover]
  split_ifs <;> simp_all

/-- Connecting lemma: the button-1 handler updates the hour digits
exactly as setHourRollover. -/
lemma b1HourInc_hour_eq_rollover (st : ClockState) :
    ((b1HourInc st).hd, (b1HourInc st).he) = setHourRollover st.hd st.he := by
  obtain ⟨hd, he, md, me, s, dm, c1, c2, c3⟩ := st
  simp only [b1HourInc, setHourRollover]
  split_ifs <;> simp_all

/-- Claim C1 counterexample: in the default (power-on) state the ghost
clickEnabled flag is false, yet a firing of the tick interrupt still
emits a buzzer pulse — the source has no clickEnabled variable and pulses
the buzzer unconditionally (lines 318 and 341), so the claim that the
click "is not emitted when clickEnabled is false (its default)" is false. -/
theorem C1_click_counterexample :
    clockPowerOn.clickEnabled = false ∧ (ISR_TIMER1_COMPA_vect clockPowerOn).2 ≠ 0 := by
  decide

/-- Claim C1, amended: for every firing of the tick interrupt the
per-second click is emitted exactly once, unconditionally — there is no
clickEnabled flag in the code — regardless of the current mode, including
while in MODE_SET_CLOCK_TIME. -/
theorem C1_click_unconditional (st : ClockState) :
    (ISR_TIMER1_COMPA_vect st).2 = 1 := rfl

/-- Claim C2 counterexample: a state with chimeEnabled true (as a ghost),
minutes = 0, hourChimeLatch false, but seconds = 30: the claim demands a
chime pulse and the latch set, yet the code (line 306) emits no pulse —
its guard also requires s == 0 and millis() divisible by 1000 — and sets
no latch, as no hourChimeLatch variable exists in the source. -/
theorem C2_chime_counterexample :
    ({ clockPowerOn with s := 30, chimeEnabled := true } : ClockState).chimeEnabled = true ∧
    ({ clockPowerOn with s := 30, chimeEnabled := true } : ClockState).md = 0 ∧
    ({ clockPowerOn with s := 30, chimeEnabled := true } : ClockState).me = 0 ∧
    ({ clockPowerOn with s := 30, chimeEnabled := true } : ClockState).hourChimeLatch = false ∧
    (hourlySignal { clockPowerOn with s := 30, chimeEnabled := true } 1000).2 = 0 ∧
    (hourlySignal { clockPowerOn with s := 30, chimeEnabled := true } 1000).1.hourChimeLatch = false := by
  decide

/-- Claim C2, amended: the foreground hourly-signal check emits one
buzzer pulse in an iteration precisely when seconds = 0, minutes-tens =
0, minutes-units = 0 and the sampled millis value is divisible by 1000;
it never modifies the state (there is no chimeEnabled flag and no
hourChimeLatch in the code, so no exactly-once-per-hour guarantee
exists). -/
theorem C2_hourly_signal_characterization (st : ClockState) (millis : Nat) :
    (hourlySignal st millis).1 = st ∧
    ((hourlySignal st millis).2 = 1 ↔
      (st.s = 0 ∧ st.md = 0 ∧ st.me = 0 ∧ millis % 1000 = 0)) := by
  unfold hourlySignal
  split_ifs with h <;> simp_all

/-- Claim C3 counterexample: from hoursTens = 2, hoursUnits = 9 (with
seconds = 59, minutes = 59, mode MODE_CLOCK_TIME), one tick does NOT
yield hoursTens = 0, hoursUnits = 0: the hd == 2 branch of the source (line
326) only resets when he == 3, so it increments he to 10, a state
representing hour 30 — contradicting both parts of the claim. -/
theorem C3_hour_rollover_counterexample :
    ({ clockPowerOn with displayMode := MODE_CLOCK_TIME, s := 59, me := 9, md := 5, hd := 2, he := 9 } : ClockState).hd = 2 ∧
    ({ clockPowerOn with displayMode := MODE_CLOCK_TIME, s := 59, me := 9, md := 5, hd := 2, he := 9 } : ClockState).he = 9 ∧
    (tickAdvance { clockPowerOn with displayMode := MODE_CLOCK_TIME, s := 59, me := 9, md := 5, hd := 2, he := 9 }).hd = 2 ∧
    (tickAdvance { clockPowerOn with displayMode := MODE_CLOCK_TIME, s := 59, me := 9, md := 5, hd := 2, he := 9 }).he = 10 ∧
    24 ≤ (tickAdvance { clockPowerOn with displayMode := MODE_CLOCK_TIME, s := 59, me := 9, md := 5, hd := 2, he := 9 }).hd * 10 +
         (tickAdvance { clockPowerOn with displayMode := MODE_CLOCK_TIME, s := 59, me := 9, md := 5, hd := 2, he := 9 }).he := by
  decide

/-- Claim C3, amended: from hoursTens = 2, hoursUnits = 3 (hour 23, the
state actually reached from valid time), a tick arriving from seconds =
59, minutes = 59 yields hoursTens = 0, hoursUnits = 0; and from every
valid state (digit fields in range, hour at most 23, seconds at most
59) the tick source never produces a state representing hour 24 or
greater. (The hoursUnits = 9 start of the original claim is an invalid state,
hour 29, on which the code instead produces hoursUnits = 10.) -/
theorem C3_hour_rollover_amended (st : ClockState)
    (hs : st.s ≤ 59) (hme : st.me ≤ 9) (hmd : st.md ≤ 5)
    (hhe : st.he ≤ 9) (hhd : st.hd ≤ 2) (hh : st.hd * 10 + st.he ≤ 23) :
    (st.displayMode = MODE_CLOCK_TIME → st.s = 59 → st.me = 9 → st.md = 5 →
      st.hd = 2 → st.he = 3 →
      (tickAdvance st).hd = 0 ∧ (tickAdvance st).he = 0) ∧
    (tickAdvance st).hd * 10 + (tickAdvance st).he ≤ 23 := by
  obtain ⟨hd, he, md, me, s, dm, c1, c2, c3⟩ := st
  simp only at hs hme hmd hhe hhd hh ⊢
  simp only [tickAdvance]
  split_ifs <;> simp_all <;> omega

/-- Claim C3 amended witness at the concrete 23:59:59 state. -/
theorem C3_hour_rollover_amended_witness :
    (tickAdvance { clockPowerOn with displayMode := MODE_CLOCK_TIME, s := 59, me := 9, md := 5, hd := 2, he := 3 }).hd = 0 ∧
    (tickAdvance { clockPowerOn with displayMode := MODE_CLOCK_TIME, s := 59, me := 9, md := 5, hd := 2, he := 3 }).he = 0 :=
  (C3_hour_rollover_amended
    { clockPowerOn with displayMode := MODE_CLOCK_TIME, s := 59, me := 9, md := 5, hd := 2, he := 3 }
    (by decide) (by decide) (by decide) (by decide) (by decide) (by decide)).1
    rfl rfl rfl rfl rfl rfl

/-- Claim C4 counterexample: a tick from seconds = 59, minutes = 59,
hours = 23 in MODE_CLOCK_TIME with the ghost hourChimeLatch true leaves
the latch true — the interrupt handler (lines 315..342) contains no
write to any latch variable, so the clause "clears hourChimeLatch" part
is false (the time fields do all reset to 0). -/
theorem C4_midnight_counterexample :
    (tickAdvance { clockPowerOn with displayMode := MODE_CLOCK_TIME, s := 59, me := 9, md := 5, hd := 2, he := 3, hourChimeLatch := true }).s = 0 ∧
    (tickAdvance { clockPowerOn with displayMode := MODE_CLOCK_TIME, s := 59, me := 9, md := 5, hd := 2, he := 3, hourChimeLatch := true }).me = 0 ∧
    (tickAdvance { clockPowerOn with displayMode := MODE_CLOCK_TIME, s := 59, me := 9, md := 5, hd := 2, he := 3, hourChimeLatch := true }).md = 0 ∧
    (tickAdvance { clockPowerOn with displayMode := MODE_CLOCK_TIME, s := 59, me := 9, md := 5, hd := 2, he := 3, hourChimeLatch := true }).he = 0 ∧
    (tickAdvance { clockPowerOn with displayMode := MODE_CLOCK_TIME, s := 59, me := 9, md := 5, hd := 2, he := 3, hourChimeLatch := true }).hd = 0 ∧
    (tickAdvance { clockPowerOn with displayMode := MODE_CLOCK_TIME, s := 59, me := 9, md := 5, hd := 2, he := 3, hourChimeLatch := true }).hourChimeLatch ≠ false := by
  decide

/-- Claim C4, amended: a tick from the state seconds = 59, minutes = 59,
hours = 23 in MODE_CLOCK_TIME resets seconds, both minute fields and both
hour fields to 0; the code has no hourChimeLatch variable, so the ghost
latch field is left unchanged rather than cleared. -/
theorem C4_midnight_rollover (st : ClockState)
    (hm : st.displayMode = MODE_CLOCK_TIME) (hs : st.s = 59)
    (hme : st.me = 9) (hmd : st.md = 5) (hhd : st.hd = 2) (hhe : st.he = 3) :
    (tickAdvance st).s = 0 ∧ (tickAdvance st).me = 0 ∧ (tickAdvance st).md = 0 ∧
    (tickAdvance st).he = 0 ∧ (tickAdvance st).hd = 0 ∧
    (tickAdvance st).hourChimeLatch = st.hourChimeLatch := by
  obtain ⟨hd, he, md, me, s, dm, c1, c2, c3⟩ := st
  simp only at hm hs hme hmd hhd hhe
  subst hm hs hme hmd hhd hhe
  simp [tickAdvance]

/-- Claim C4 amended witness at the concrete 23:59:59 state. -/
theorem C4_midnight_rollover_witness :
    (tickAdvance { clockPowerOn with displayMode := MODE_CLOCK_TIME, s := 59, me := 9, md := 5, hd := 2, he := 3 }).s = 0 ∧
    (tickAdvance { clockPowerOn with displayMode := MODE_CLOCK_TIME, s := 59, me := 9, md := 5, hd := 2, he := 3 }).me = 0 ∧
    (tickAdvance { clockPowerOn with displayMode := MODE_CLOCK_TIME, s := 59, me := 9, md := 5, hd := 2, he := 3 }).md = 0 ∧
    (tickAdvance { clockPowerOn with displayMode := MODE_CLOCK_TIME, s := 59, me := 9, md := 5, hd := 2, he := 3 }).he = 0 ∧
    (tickAdvance { clockPowerOn with displayMode := MODE_CLOCK_TIME, s := 59, me := 9, md := 5, hd := 2, he := 3 }).hd = 0 ∧
    (tickAdvance { clockPowerOn with displayMode := MODE_CLOCK_TIME, s := 59, me := 9, md := 5, hd := 2, he := 3 }).hourChimeLatch =
      ({ clockPowerOn with displayMode := MODE_CLOCK_TIME, s := 59, me := 9, md := 5, hd := 2, he := 3 } : ClockState).hourChimeLatch :=
  C4_midnight_rollover
    { clockPowerOn with displayMode := MODE_CLOCK_TIME, s := 59, me := 9, md := 5, hd := 2, he := 3 }
    rfl rfl rfl rfl rfl rfl

/-- Claim C5: the tick-source hour rollover rule (reset when hoursUnits
equals 3 under hoursTens = 2, lines 325..335) and the manual-set hour
rollover rule (reset when hoursUnits exceeds 2, lines 131..144) compute
the same successor for every pair of digit fields encoding a valid hour
in 0..23. -/
theorem C5_rollover_rules_agree (hd he : Nat)
    (hhe : he ≤ 9) (hh : hd * 10 + he ≤ 23) :
    tickHourRollover hd he = setHourRollover hd he := by
  have hhd : hd ≤ 2 := by omega
  interval_cases hd <;> interval_cases he <;> first | decide | omega

/-- Claim C5 witness at the valid hour 23 (hoursTens 2, hoursUnits 3). -/
theorem C5_rollover_rules_agree_witness :
    tickHourRollover 2 3 = setHourRollover 2 3 :=
  C5_rollover_rules_agree 2 3 (by decide) (by decide)

/-- Claim C6: for every seconds value at most 58, one tick in
MODE_CLOCK_TIME increments seconds by exactly 1 and leaves all four
minute and hour digit fields unchanged. -/
theorem C6_tick_frame (st : ClockState)
    (hm : st.displayMode = MODE_CLOCK_TIME) (hs : st.s ≤ 58) :
    (tickAdvance st).s = st.s + 1 ∧
    (tickAdvance st).md = st.md ∧ (tickAdvance st).me = st.me ∧
    (tickAdvance st).hd = st.hd ∧ (tickAdvance st).he = st.he := by
  obtain ⟨hd, he, md, me, s, dm, c1, c2, c3⟩ := st
  simp only at hm hs ⊢
  subst hm
  simp only [tickAdvance]
  split_ifs <;> simp_all <;> omega

/-- Claim C6 witness at seconds = 17. -/
theorem C6_tick_frame_witness :
    (tickAdvance { clockPowerOn with displayMode := MODE_CLOCK_TIME, s := 17, md := 4, me := 2, hd := 1, he := 8 }).s = 17 + 1 ∧
    (tickAdvance { clockPowerOn with displayMode := MODE_CLOCK_TIME, s := 17, md := 4, me := 2, hd := 1, he := 8 }).md = 4 ∧
    (tickAdvance { clockPowerOn with displayMode := MODE_CLOCK_TIME, s := 17, md := 4, me := 2, hd := 1, he := 8 }).me = 2 ∧
    (tickAdvance { clockPowerOn with displayMode := MODE_CLOCK_TIME, s := 17, md := 4, me := 2, hd := 1, he := 8 }).hd = 1 ∧
    (tickAdvance { clockPowerOn with displayMode := MODE_CLOCK_TIME, s := 17, md := 4, me := 2, hd := 1, he := 8 }).he = 8 :=
  C6_tick_frame
    { clockPowerOn with displayMode := MODE_CLOCK_TIME, s := 17, md := 4, me := 2, hd := 1, he := 8 }
    rfl (by decide)

/-- Claim C7: in MODE_SET_CLOCK_TIME one button-1 press follows the
manual hour rollover rule: under hoursTens = 2, hoursUnits increments
until it exceeds 2, at which point both fields reset to 0; under
hoursTens 0 or 1, hoursUnits increments with carry into hoursTens when
it would reach 10; in particular from the already-invalid transient
hoursTens = 2, hoursUnits = 3 one press yields 0, 0. -/
theorem C7_manual_hour_increment (st : ClockState) :
    (st.hd = 2 → 2 < st.he → (b1HourInc st).hd = 0 ∧ (b1HourInc st).he = 0) ∧
    (st.hd = 2 → st.he ≤ 2 → (b1HourInc st).hd = 2 ∧ (b1HourInc st).he = st.he + 1) ∧
    (st.hd ≤ 1 → st.he = 9 → (b1HourInc st).hd = st.hd + 1 ∧ (b1HourInc st).he = 0) ∧
    (st.hd ≤ 1 → st.he ≤ 8 → (b1HourInc st).hd = st.hd ∧ (b1HourInc st).he = st.he + 1) ∧
    ((b1HourInc { clockPowerOn with hd := 2, he := 3 }).hd = 0 ∧
     (b1HourInc { clockPowerOn with hd := 2, he := 3 }).he = 0) := by
  obtain ⟨hd, he, md, me, s, dm, c1, c2, c3⟩ := st
  refine ⟨?_, ?_, ?_, ?_, by decide⟩ <;>
    · intro h1 h2
      simp only [b1HourInc] at *
      split_ifs <;> simp_all <;> omega

/-- Claim C7 witness at the transient state hoursTens 2, hoursUnits 3. -/
theorem C7_manual_hour_increment_witness :
    (b1HourInc { clockPowerOn with hd := 2, he := 3 }).hd = 0 ∧
    (b1HourInc { clockPowerOn with hd := 2, he := 3 }).he = 0 :=
  (C7_manual_hour_increment { clockPowerOn with hd := 2, he := 3 }).1 rfl (by decide)

/-- Claim C8: the MODE_SET_CLOCK_TIME case exits when button 3 reads
LOW, and on that transition seconds is forced to 0 regardless of its
prior value (and of any button-1/button-2 presses made while in the
mode) and displayMode becomes MODE_CLOCK_TIME. -/
theorem C8_confirm_forces_seconds_zero (presses : List (Bool × Bool)) (st : ClockState) :
    (caseSetClockTime presses st).s = 0 ∧
    (caseSetClockTime presses st).displayMode = MODE_CLOCK_TIME := by
  simp [caseSetClockTime]

/-- The tick interrupt preserves the hour-field invariant. -/
lemma tickAdvance_hourInvariant (st : ClockState)
    (h : hourInvariant st) : hourInvariant (tickAdvance st) := by
  obtain ⟨hd, he, md, me, s, dm, c1, c2, c3⟩ := st
  simp only [hourInvariant] at h ⊢
  simp only [tickAdvance]
  split_ifs <;> simp_all <;> omega

/-- The button-1 manual hour increment preserves the hour-field
invariant. -/
lemma b1HourInc_hourInvariant (st : ClockState)
    (h : hourInvariant st) : hourInvariant (b1HourInc st) := by
  obtain ⟨hd, he, md, me, s, dm, c1, c2, c3⟩ := st
  simp only [hourInvariant] at h ⊢
  simp only [b1HourInc]
  split_ifs <;> simp_all <;> omega

/-- The button-2 minute increment leaves the hour fields untouched. -/
lemma b2MinuteInc_hour_frame (st : ClockState) :
    (b2MinuteInc st).hd = st.hd ∧ (b2MinuteInc st).he = st.he := by
  simp only [b2MinuteInc]
  split_ifs <;> simp_all

/-- The button-2 minute increment preserves the hour-field invariant. -/
lemma b2MinuteInc_hourInvariant (st : ClockState)
    (h : hourInvariant st) : hourInvariant (b2MinuteInc st) := by
  obtain ⟨hf1, hf2⟩ := b2MinuteInc_hour_frame st
  unfold hourInvariant at h ⊢
  omega

/-- One setting-mode iteration preserves the hour-field invariant. -/
lemma settingIteration_hourInvariant (b1 b2 : Bool) (st : ClockState)
    (h : hourInvariant st) : hourInvariant (settingIteration b1 b2 st) := by
  simp only [settingIteration]
  split_ifs <;>
    first
      | exact b2MinuteInc_hourInvariant _ (b1HourInc_hourInvariant st h)
      | exact b2MinuteInc_hourInvariant st h
      | exact b1HourInc_hourInvariant st h
      | exact h

/-- The whole MODE_SET_CLOCK_TIME case preserves the hour-field
invariant, for every trace of button samples. -/
lemma caseSetClockTime_hourInvariant (presses : List (Bool × Bool)) (st : ClockState)
    (h : hourInvariant st) : hourInvariant (caseSetClockTime presses st) := by
  simp only [caseSetClockTime]
  have hfold : hourInvariant (presses.foldl (fun a p => settingIteration p.1 p.2 a) st) := by
    induction presses generalizing st with
    | nil => exact h
    | cons p ps ih =>
        exact ih (settingIteration p.1 p.2 st) (settingIteration_hourInvariant p.1 p.2 st h)
  unfold hourInvariant at hfold ⊢
  simpa using hfold

/-- Claim C9: every state reachable from the power-on state under the
modelled operations (the tick interrupt, the setting-mode button
handlers, the set-mode confirmation and the mode-switch combo)
satisfies the hour-field invariant: hoursUnits at most 9, hoursTens at
most 2, and the pair encoding an hour at most 23. -/
theorem C9_hour_invariant_reachable (st : ClockState)
    (h : Reachable st) : hourInvariant st := by
  induction h with
  | init => decide
  | tick _ ih => exact tickAdvance_hourInvariant _ ih
  | setHour _ ih => exact b1HourInc_hourInvariant _ ih
  | setMinute _ ih => exact b2MinuteInc_hourInvariant _ ih
  | confirm presses _ ih => exact caseSetClockTime_hourInvariant presses _ ih
  | combo _ ih =>
      unfold hourInvariant at ih ⊢
      simpa [b1b2Combo] using ih

/-- Claim C9 witness: the power-on state is reachable and satisfies the
invariant. -/
theorem C9_hour_invariant_reachable_witness : hourInvariant clockPowerOn :=
  C9_hour_invariant_reachable clockPowerOn Reachable.init

/-- Claim C10: when the tick interrupt fires in MODE_SET_CLOCK_TIME from
any state with seconds at most 59, the whole state is unchanged — in
particular all five time fields — so the interrupt writes no time field
while the foreground mode state machine is the active writer. -/
theorem C10_tick_noop_in_set_mode (st : ClockState)
    (hm : st.displayMode = MODE_SET_CLOCK_TIME) (hs : st.s ≤ 59) :
    tickAdvance st = st := by
  obtain ⟨hd, he, md, me, s, dm, c1, c2, c3⟩ := st
  simp only at hm hs
  subst hm
  simp only [tickAdvance]
  split_ifs <;> simp_all

/-- Claim C10 witness at a concrete setting-mode state. -/
theorem C10_tick_noop_in_set_mode_witness :
    tickAdvance { clockPowerOn with s := 42, md := 5, me := 9, hd := 2, he := 3 } =
      { clockPowerOn with s := 42, md := 5, me := 9, hd := 2, he := 3 } :=
  C10_tick_noop_in_set_mode
    { clockPowerOn with s := 42, md := 5, me := 9, hd := 2, he := 3 }
    rfl (by decide)
